import Mathlib

/-!
Shallow embedding of the turn-resolution controller of `gm_engine`
(`gm_engine/rlm/controller.py`, `gm_engine/rlm/types.py`) and of the
interaction-log part of the world-state store (`gm_engine/state/store.py`).

Modelling conventions:
* Python `str` is `String`; `.strip()` is `pyStrip`, `.lower()` is
  `pyLower` (ASCII, which is what the stripped/lower-cased values contain);
  string primitives are defined by structural recursion over the character
  list so that every definition evaluates by kernel reduction.
* Python non-negative budget integers are `Nat` (the spec fixes
  `max_depth : int ≥ 0`); configuration integers that are compared against
  `0` in the code (`memory_turns`, `top_k`, read `limit`s) are `Int`.
* Python dicts that the code builds with fixed keys become structures;
  the `debug` diagnostics dict, whose keys vary, becomes an association
  list `Debug` over an inductive value type `DebugVal`.
* `async` sequencing is direct state passing; external collaborators
  (LLM provider, knowledge store, state store, `json.dumps`) are
  environment-supplied functions in `Env`, as the spec directs (§6, §9).
* Each controller function is instrumented to also return the list of
  LLM requests it issued and the retrieval specs it executed, so that the
  budget claims can speak about numbers of external calls.
-/

namespace GMv3

/-- The ASCII apostrophe character (written via its code point so that the
source file never contains a bare quote character). -/
def sqc : Char := Char.ofNat 39

/-- The ASCII apostrophe as a one-character string. -/
def sq : String := String.mk [sqc]

/-- The typographic right single quotation mark (U+2019) used by the
controller source in its fixed narration strings. -/
def rsq : String := String.mk [Char.ofNat 0x2019]

/-- Python `str.strip()`: remove leading and trailing whitespace (ASCII
whitespace, which is all the strings the code strips can contain). -/
def pyStrip (s : String) : String :=
  String.mk
    (((s.toList.dropWhile Char.isWhitespace).reverse.dropWhile Char.isWhitespace).reverse)

/-- ASCII lower-casing of one character (Python `str.lower` on the ASCII
configuration strings and transcripts the code lower-cases). -/
def asciiLowerChar (c : Char) : Char :=
  if 'A' ≤ c ∧ c ≤ 'Z' then Char.ofNat (c.toNat + 32) else c

/-- Python `str.lower()`. -/
def pyLower (s : String) : String :=
  String.mk (s.toList.map asciiLowerChar)

/-- Python `s.startswith(w)`. -/
def pyStartsWith (s w : String) : Bool :=
  w.toList.isPrefixOf s.toList

/-- The line terminators recognised by Python `str.splitlines`. -/
def isLineBreak (c : Char) : Bool :=
  c = '\n' || c = '\r' || c.toNat = 0x0b || c.toNat = 0x0c ||
  c.toNat = 0x1c || c.toNat = 0x1d || c.toNat = 0x1e || c.toNat = 0x85 ||
  c.toNat = 0x2028 || c.toNat = 0x2029

/-- Python `s.splitlines()[0]` for non-empty `s` (`""` for empty `s`,
where Python would raise `IndexError`). -/
def firstLine (s : String) : String :=
  String.mk (s.toList.takeWhile (fun c => !isLineBreak c))

/-- Helper for the substring test: does `needle` occur in the list? -/
def containsAux (needle : List Char) : List Char → Bool
  | [] => needle.isEmpty
  | c :: cs => needle.isPrefixOf (c :: cs) || containsAux needle cs

/-- Python `needle in hay` substring test. -/
def strContains (hay needle : String) : Bool :=
  containsAux needle.toList hay.toList

/-- Python list slice `l[-n:]` for a non-negative count `n`
(with `l[-0:] = l`, which matches `List.drop (l.length - 0)`). -/
def takeLast (n : Nat) (l : List α) : List α :=
  l.drop (l.length - n)

/-- Python string slice `s[:n]` (`String.take`), on `Int` counts:
a non-positive count yields the empty string, as in Python for `n = 0`
(the code only slices with positive literals, so the negative case is moot). -/
def strTake (s : String) (n : Nat) : String :=
  ⟨s.toList.take n⟩

/-- `"\n".join(lines)` from Python. -/
def joinLines (lines : List String) : String :=
  String.intercalate "\n" lines

/-- `" ".join(parts)` from Python. -/
def joinSpace (parts : List String) : String :=
  String.intercalate " " parts

-- ------------------------------------------------------------------
-- Data model (gm_engine/rlm/types.py)
-- ------------------------------------------------------------------

/-- `Budget` from `gm_engine/rlm/types.py` (frozen dataclass).
All fields are non-negative integers per the spec (§3, `max_depth : int ≥ 0`). -/
structure Budget where
  max_depth : Nat := 2
  max_llm_calls_per_turn : Nat := 3
  max_qdrant_queries_per_turn : Nat := 2
  max_sql_reads_per_turn : Nat := 20
  max_sql_writes_per_turn : Nat := 20
deriving Repr, DecidableEq

/-- `TurnContext` from `gm_engine/rlm/types.py`. -/
structure TurnContext where
  campaign_id : String
  session_id : String
  turn_id : String
  player_id : String
  transcript_text : String
  locale : String := "en-US"
deriving Repr, DecidableEq

/-- A value stored in a retrieval `filters` dict: the code stores either a
single string or a list of strings under each key. -/
inductive FVal where
  | s (v : String)
  | l (vs : List String)
deriving Repr, DecidableEq

/-- The `filters: dict[str, Any]` built by `_interpret_intent`, as an
association list in Python dict insertion order. -/
abbrev Filters := List (String × FVal)

/-- `RetrievalSpec` from `gm_engine/rlm/types.py`. -/
structure RetrievalSpec where
  query : String
  top_k : Int := 5
  filters : Option Filters := none
deriving Repr, DecidableEq

/-- The `params` dict of a `StateReadSpec`: the controller and store only
ever use the keys `limit`, `session_id`, `player_id` (absent keys modelled
by the defaults the reading code substitutes for them). -/
structure ReadParams where
  limit : Option Int := none
  session_id : String := ""
  player_id : String := ""
deriving Repr, DecidableEq

/-- `StateReadSpec` from `gm_engine/rlm/types.py`. -/
structure StateReadSpec where
  kind : String
  params : ReadParams
deriving Repr, DecidableEq

/-- The interaction-log entry dict assembled in `handle_turn`
(controller.py lines 221-231); also the entry shape consumed by
`_format_memory` and by the store filters. -/
structure LogEntry where
  kind : String := ""
  campaign_id : String := ""
  session_id : String := ""
  turn_id : String := ""
  player_id : String := ""
  locale : String := ""
  player_text : String := ""
  gm_text : String := ""
  followups : List String := []
deriving Repr, DecidableEq

/-- The `params` dict of a `StateWriteSpec`. The controller itself only
builds `append_log` params carrying an `entry`; the other write kinds of
the store (`schedule_delayed_event`, generic CRUD) are represented
abstractly by their kind string plus an uninterpreted payload tag. -/
inductive WriteParams where
  | appendLog (entry : LogEntry)
  | generic (payload : String)
deriving Repr, DecidableEq

/-- `StateWriteSpec` from `gm_engine/rlm/types.py`. -/
structure StateWriteSpec where
  kind : String
  params : WriteParams
deriving Repr, DecidableEq

/-- A delayed-event payload (`dict[str, Any]` in the source); its contents
are never inspected by the controller, only carried, so it is modelled as
an association list of strings. -/
abbrev DelayedEvent := List (String × String)

/-- A value of the `debug` diagnostics dict built by `_rlm_step`. -/
inductive DebugVal where
  | s (v : String)
  | n (v : Nat)
  | b (v : Bool)
  | sl (v : List String)
  | d (v : List (String × DebugVal))
deriving Repr

/-- The `debug` diagnostics dict, in insertion order. -/
abbrev Debug := List (String × DebugVal)

/-- `NarrationPlan` from `gm_engine/rlm/types.py`. -/
structure NarrationPlan where
  immediate_text : String
  followups : List String
  writes : List StateWriteSpec
  delayed_events : List DelayedEvent
  debug : Option Debug := none
deriving Repr

/-- The metadata map of one knowledge hit (`h["meta"]`); the code reads the
keys `doc_id`, `doc_kind`, `ruleset`, `page`, `type` and passes each through
`str(...)`, so all are strings here (`type` is spelt `ctype`, the local
variable name the code itself uses for it). -/
structure HitMeta where
  doc_id : String := ""
  doc_kind : String := ""
  ruleset : String := ""
  page : String := ""
  ctype : String := ""
deriving Repr, DecidableEq

/-- One knowledge hit as consumed by `_format_snippets` /
`_knowledge_sources`: a dict with `text` and `meta`. -/
structure KnowledgeHit where
  text : String := ""
  meta : HitMeta := {}
deriving Repr, DecidableEq

/-- `RLMController._Resolution` (controller.py lines 335-343). -/
structure Resolution where
  immediate_text : String
  followups : List String
  writes : List StateWriteSpec
  delayed_events : List DelayedEvent
  needs_followup : Bool
  recurse_reason : Option String
  llm_calls_used : Nat
deriving Repr

/-- `RLMController._Intent` (controller.py lines 328-333). -/
structure Intent where
  kind : String
  state_reads : List StateReadSpec
  retrievals : List RetrievalSpec
  llm_calls_used : Nat
deriving Repr

/-- One request issued to `LLMProvider.complete`: the `system` and `user`
prompts (the `phase` tag mirrors the `llm_call` logger event emitted just
before the call). -/
structure LLMCall where
  phase : String
  system : String
  user : String
deriving Repr, DecidableEq

/-- The state view returned by `WorldStateStore.read` as the controller
consumes it: `_format_memory` reads its `interaction_log` list, and
`json.dumps(state_view)` (Python stdlib, environment-supplied here)
is carried as the `json` field. -/
structure StateView where
  interaction_log : List LogEntry := []
  json : String := ""
deriving Repr

-- ------------------------------------------------------------------
-- Settings (gm_engine/app/settings.py, fields the controller reads)
-- ------------------------------------------------------------------

/-- `PromptSettings` from `gm_engine/app/settings.py` (fields read by the
controller, with their source defaults). -/
structure PromptSettings where
  intent_classify_system : String :=
    "Classify player intent into one of: action, question, dialogue, meta."
  resolve_system : String :=
    "You are a strict, consistent tabletop GM assistant. " ++
    "You must be concise and deterministic. If rules are unclear, ask a clarifying question."
  resolve_user_template : String :=
    "Player said: {{transcript}}\n\n" ++
    "Recent memory:\n{{memory}}\n\n" ++
    "State snapshot: {{state_json}}\n\n" ++
    "Relevant rules/lore:\n{{snippets}}\n\n" ++
    "Reply only with the GM" ++ sq ++ "s narration (1-3 concise sentences). Do not output JSON."
  include_memory : Bool := true
  memory_turns : Int := 12
  response_language_mode : String := "player"
deriving Repr

/-- `KnowledgeSettings` from `gm_engine/app/settings.py` (fields read by the
controller). -/
structure KnowledgeSettings where
  enabled : Bool := false
  top_k : Int := 5
  active_doc_ids : List String := []
deriving Repr

/-- `VoiceSettings` from `gm_engine/app/settings.py` (field read by the
resolver language policy). -/
structure VoiceSettings where
  locale : String := "en-US"
deriving Repr

/-- `AppSettings` from `gm_engine/app/settings.py` (the sections the
controller reads). -/
structure AppSettings where
  voice : VoiceSettings := {}
  knowledge : KnowledgeSettings := {}
  prompts : PromptSettings := {}
deriving Repr

/-- The controller environment: the configuration snapshot plus the
external collaborators of spec §6, as pure functions.
`llm system user` models `LLMProvider.complete`; `search` models
`KnowledgeStore.search`; `readState` models `WorldStateStore.read`;
`dumpEntry` models `json.dumps` on an unknown-kind log entry. -/
structure Env where
  settings : AppSettings
  llm : String → String → String
  search : RetrievalSpec → List KnowledgeHit
  readState : List StateReadSpec → StateView
  dumpEntry : LogEntry → String

-- ------------------------------------------------------------------
-- Controller string helpers (controller.py lines 44-177)
-- ------------------------------------------------------------------

/-- The `[a-zA-Z0-9_]` character class of the `_render` template pattern. -/
def isNameChar (c : Char) : Bool :=
  c.isAlphanum || c = '_'

/-- Try to match the regex `\x7b\x7b\s*([a-zA-Z0-9_]+)\s*\x7d\x7d` of
`RLMController._render` at the start of `cs`; on success return the captured
variable name and the characters after the match (`\s` is modelled as ASCII
whitespace, which is what the templates use). -/
def tryVar (cs : List Char) : Option (String × List Char) :=
  match cs with
  | '\x7b' :: '\x7b' :: rest =>
    if ((rest.dropWhile Char.isWhitespace).takeWhile isNameChar).isEmpty then none
    else
      match ((rest.dropWhile Char.isWhitespace).dropWhile isNameChar).dropWhile
          Char.isWhitespace with
      | '\x7d' :: '\x7d' :: tail =>
        some (String.mk ((rest.dropWhile Char.isWhitespace).takeWhile isNameChar), tail)
      | _ => none
  | _ => none

theorem tryVar_length {cs : List Char} {v : String} {tail : List Char}
    (h : tryVar cs = some (v, tail)) : tail.length < cs.length := by
  unfold tryVar at h
  split at h
  case h_2 => simp at h
  case h_1 rest =>
    split at h
    · simp at h
    · split at h
      case h_2 => simp at h
      case h_1 tail2 heq =>
        injection h with h1
        injection h1 with h2 h3
        subst h3
        have s1 : tail2.length + 2 = (((rest.dropWhile Char.isWhitespace).dropWhile
            isNameChar).dropWhile Char.isWhitespace).length := by
          rw [heq]; simp
        have s2 := (List.dropWhile_sublist (l := (rest.dropWhile Char.isWhitespace).dropWhile
            isNameChar) Char.isWhitespace).length_le
        have s3 := (List.dropWhile_sublist (l := rest.dropWhile Char.isWhitespace)
            isNameChar).length_le
        have s4 := (List.dropWhile_sublist (l := rest) Char.isWhitespace).length_le
        simp only [List.length_cons]
        omega

/-- `RLMController._render` (controller.py lines 44-50): substitute every
occurrence of the template pattern by the variable value (empty string when
the variable is absent), scanning left to right as `re.sub` does. -/
def renderChars (vars : List (String × String)) : List Char → List Char
  | [] => []
  | c :: cs =>
    match h : tryVar (c :: cs) with
    | some (v, tail) => ((vars.lookup v).getD "").toList ++ renderChars vars tail
    | none => c :: renderChars vars cs
termination_by l => l.length
decreasing_by
  · exact tryVar_length h
  · simp only [List.length_cons]; omega

/-- `RLMController._render` on strings. -/
def render (template : String) (vars : List (String × String)) : String :=
  String.mk (renderChars vars template.toList)

/-- The per-entry lines contributed by `RLMController._format_memory`
(controller.py lines 58-79); `dumpEntry` stands for the compact
`json.dumps` used for entries of unknown kind. -/
def entryLines (dumpEntry : LogEntry → String) (e : LogEntry) : List String :=
  if e.kind == "turn" then
    let pid := pyStrip e.player_id
    let pt := pyStrip e.player_text
    let gt := pyStrip e.gm_text
    (if pt ≠ "" then
      [(if pid ≠ "" then "PLAYER(" ++ pid ++ ")" else "PLAYER") ++ ": " ++ pt]
     else [])
    ++ (if gt ≠ "" then ["GM: " ++ gt] else [])
    ++ e.followups.filterMap (fun fu =>
        let fu_s := pyStrip fu
        if fu_s ≠ "" then some ("GM: " ++ fu_s) else none)
  else
    [dumpEntry e]

/-- `RLMController._format_memory` (controller.py lines 52-80). -/
def format_memory (dumpEntry : LogEntry → String) (state_view : StateView)
    (max_turns : Nat) : String :=
  let entries := takeLast max_turns state_view.interaction_log
  pyStrip (joinLines ((entries.map (entryLines dumpEntry)).flatten))

/-- One snippet block of `RLMController._format_snippets`
(controller.py lines 84-107): `none` when the hit text is blank. -/
def snippetBlock (h : KnowledgeHit) : Option String :=
  let m := h.meta
  let hdr_parts := [m.doc_id, m.doc_kind, m.ruleset,
                    if m.page ≠ "" then "p" ++ m.page else "",
                    m.ctype].filter (fun p => p ≠ "")
  let hdr0 := pyStrip (joinSpace hdr_parts)
  let hdr := if hdr0 ≠ "" then "[" ++ hdr0 ++ "]" else "[knowledge]"
  let txt := pyStrip h.text
  if txt = "" then none else some (hdr ++ "\n" ++ txt)

/-- `RLMController._format_snippets` (controller.py lines 82-108). -/
def format_snippets (knowledge_hits : List KnowledgeHit)
    (max_snippets : Nat) : String :=
  pyStrip (String.intercalate "\n\n"
    ((knowledge_hits.take max_snippets).filterMap snippetBlock))

/-- The source label one hit contributes in
`RLMController._knowledge_sources` (controller.py lines 116-124). -/
def sourceOf (h : KnowledgeHit) : String :=
  let doc_id := if pyStrip h.meta.doc_id ≠ "" then pyStrip h.meta.doc_id else "unknown_doc"
  let page := pyStrip h.meta.page
  let ctype := pyStrip h.meta.ctype
  doc_id ++ (if page ≠ "" then " p" ++ page else "")
         ++ (if ctype ≠ "" then " " ++ ctype else "")

/-- Loop of `RLMController._knowledge_sources`: `out` is the accumulator in
reverse order (the Python `seen` set always equals the set of elements of
`out`, so a single accumulator suffices); the length check happens after an
append, as in the source. -/
def knowledgeSourcesAux (max_sources : Nat) :
    List KnowledgeHit → List String → List String
  | [], out => out.reverse
  | h :: hs, out =>
    let src := sourceOf h
    if out.contains src then knowledgeSourcesAux max_sources hs out
    else if out.length + 1 ≥ max_sources then (src :: out).reverse
    else knowledgeSourcesAux max_sources hs (src :: out)

/-- `RLMController._knowledge_sources` (controller.py lines 110-131). -/
def knowledge_sources (knowledge_hits : List KnowledgeHit)
    (max_sources : Nat) : List String :=
  knowledgeSourcesAux max_sources knowledge_hits []

/-- `RLMController._lang_base` (controller.py lines 133-137). -/
def lang_base (tag : String) : String :=
  let s := pyLower (String.mk ((pyStrip tag).toList.map
    (fun c => if c = '_' then '-' else c)))
  if s = "" then ""
  else String.mk (s.toList.takeWhile (fun c => c ≠ '-'))

/-- The strong non-Latin script signal of `RLMController._looks_englishish`
(controller.py lines 145-153). -/
def nonLatinSignal (c : Char) : Bool :=
  (0x0400 ≤ c.toNat && c.toNat ≤ 0x04ff) ||
  (0x0600 ≤ c.toNat && c.toNat ≤ 0x06ff) ||
  (0x0900 ≤ c.toNat && c.toNat ≤ 0x097f) ||
  (0x4e00 ≤ c.toNat && c.toNat ≤ 0x9fff) ||
  (0x3040 ≤ c.toNat && c.toNat ≤ 0x30ff) ||
  (0xac00 ≤ c.toNat && c.toNat ≤ 0xd7af)

/-- The `[a-zA-Z']+` word character class of `_looks_englishish`. -/
def isEngWordChar (c : Char) : Bool :=
  c.isAlpha || c = sqc

/-- `re.findall(r"[a-zA-Z<apos>]+", s)`: maximal runs of word characters;
`acc` holds the current run in reverse. -/
def wordsAux : List Char → List Char → List String
  | [], acc => if acc.isEmpty then [] else [String.mk acc.reverse]
  | c :: cs, acc =>
    if isEngWordChar c then wordsAux cs (c :: acc)
    else if acc.isEmpty then wordsAux cs []
    else String.mk acc.reverse :: wordsAux cs []

/-- The fixed common-word set of `_looks_englishish` (controller.py
lines 158-175). -/
def commonWords : List String :=
  ["the", "and", "you", "your", "are", "is", "to", "of", "in", "with",
   "for", "what", "next", "start", "roll", "check"]

/-- `RLMController._looks_englishish` (controller.py lines 139-177). -/
def looks_englishish (text : String) : Bool :=
  let t := pyStrip text
  if t = "" then false
  else
    let low := pyLower t
    if low.toList.any nonLatinSignal then false
    else
      let words := wordsAux low.toList []
      if words.isEmpty then false
      else
        let hits := words.countP (fun w => commonWords.contains w)
        decide (hits ≥ 2) || (decide (hits ≥ 1) && decide (words.length ≥ 6))

-- ------------------------------------------------------------------
-- Intent interpretation (controller.py lines 345-422)
-- ------------------------------------------------------------------

/-- `RLMController._interpret_intent`. Besides the `_Intent` result it
returns the list of LLM requests it issued (empty or the single
classification call). On an empty classification response the Python code
would raise `IndexError` at `splitlines()[0]`; the model yields `""` there
(no claim depends on that corner). -/
def interpret_intent (env : Env) (b : Budget) (ctx : TurnContext) (llm_calls : Nat) :
    Intent × List LLMCall :=
  let s := env.settings
  let text := pyLower (pyStrip ctx.transcript_text)
  let reads : List StateReadSpec :=
    [{kind := "campaign_snapshot", params := {}}] ++
    (if s.prompts.include_memory ∧ s.prompts.memory_turns > 0 then
      [{kind := "interaction_log", params := {limit := some s.prompts.memory_turns}}]
     else [])
  let retrievals : List RetrievalSpec :=
    if s.knowledge.enabled then
      let is_question := strContains text "?" ||
        ["what", "why", "how", "who", "where", "when", "can ", "do ", "does "].any
          (fun w => pyStartsWith text w)
      let looks_rules :=
        ["rule", "how does", "can i", "allowed", "attack", "spell", "damage"].any
          (fun k => strContains text k)
      let looks_gm_advice :=
        ["how to run", "gm", "game master", "session", "pacing", "improv"].any
          (fun k => strContains text k)
      let looks_char :=
        ["npc", "character", "who is", "who" ++ sq ++ "s", "who are"].any
          (fun k => strContains text k)
      let looks_loc :=
        ["location", "where is", "where" ++ sq ++ "s", "town", "city", "village",
         "dungeon"].any (fun k => strContains text k)
      let looks_quest :=
        ["quest", "mission", "objective", "hook", "reward"].any
          (fun k => strContains text k)
      let looks_faction :=
        ["faction", "guild", "clan", "cult", "order"].any (fun k => strContains text k)
      let looks_item :=
        ["item", "weapon", "armor", "potion", "artifact"].any
          (fun k => strContains text k)
      let looks_monster :=
        ["monster", "creature", "beast", "dragon", "undead"].any
          (fun k => strContains text k)
      let looks_story :=
        ["story", "plot", "scene", "chapter"].any (fun k => strContains text k)
      let filters0 : Filters :=
        if s.knowledge.active_doc_ids ≠ [] then
          [("doc_id", FVal.l s.knowledge.active_doc_ids)]
        else []
      let filters : Filters :=
        if looks_gm_advice then filters0 ++ [("doc_kind", FVal.s "gm_advice")]
        else if looks_rules then filters0 ++ [("type", FVal.s "rules")]
        else
          let types : List String :=
            (if looks_char then ["characters"] else []) ++
            (if looks_loc then ["locations"] else []) ++
            (if looks_quest then ["quests"] else []) ++
            (if looks_faction then ["factions"] else []) ++
            (if looks_item then ["items"] else []) ++
            (if looks_monster then ["monsters"] else []) ++
            (if looks_story then ["story"] else [])
          let types :=
            if types = [] then
              if is_question then ["lore", "story", "characters", "locations", "quests"]
              else ["rules", "lore", "story", "examples", "tables"]
            else types
          filters0 ++ [("type", FVal.l types)]
      [{query := ctx.transcript_text,
        top_k := if s.knowledge.top_k > 0 then s.knowledge.top_k else 5,
        filters := if filters = [] then none else some filters}]
    else []
  if text.length < 12 ∧ llm_calls < b.max_llm_calls_per_turn then
    let out := env.llm s.prompts.intent_classify_system ctx.transcript_text
    let kind := strTake (firstLine (pyStrip out)) 64
    ({kind := kind, state_reads := reads, retrievals := retrievals,
      llm_calls_used := llm_calls + 1},
     [{phase := "intent_classify", system := s.prompts.intent_classify_system,
       user := ctx.transcript_text}])
  else
    let kind :=
      if ["i ", "we ", "attack", "go", "take", "use"].any (fun v => strContains text v)
      then "action" else "question"
    ({kind := kind, state_reads := reads, retrievals := retrievals,
      llm_calls_used := llm_calls}, [])

-- ------------------------------------------------------------------
-- Resolver (controller.py lines 424-539)
-- ------------------------------------------------------------------

/-- The language-policy clause and the target language tag computed in
`_resolve` (controller.py lines 454-475). -/
def languagePolicy (s : AppSettings) (ctxLocale : String) : String × String :=
  let lang_mode := pyLower (pyStrip s.prompts.response_language_mode)
  let detected_lang := pyStrip ctxLocale
  let target_lang := if detected_lang = "" then "en-US" else detected_lang
  if lang_mode = "locale" then
    let forced0 :=
      if s.voice.locale ≠ "" then s.voice.locale
      else if detected_lang ≠ "" then detected_lang
      else "en-US"
    let forced_locale := if pyStrip forced0 = "" then "en-US" else pyStrip forced0
    ("Reply ONLY in locale/language " ++ forced_locale ++ ". " ++
     "Do not switch languages even if the player speaks another language.",
     forced_locale)
  else
    if detected_lang ≠ "" then
      ("Reply ONLY in the player" ++ sq ++ "s language (" ++ detected_lang ++ "). " ++
       "Never translate to English unless the player spoke English. " ++
       "If the player switches language, switch to that language.", target_lang)
    else
      ("Reply ONLY in the same language as the player" ++ sq ++ "s latest utterance. " ++
       "If mixed, use the dominant language and avoid translating to English by default.",
       target_lang)

/-- The knowledge citation policy clause (controller.py lines 478-481). -/
def kbPolicyText : String :=
  "Use the provided knowledge snippets as the source of truth for rules/lore. " ++
  "When applying a rule, cite the snippet header briefly (for example: [doc_id p12])."

/-- The memory block substituted into the resolve prompt
(controller.py lines 430-434). -/
def memoryText (env : Env) (state_view : StateView) : String :=
  let s := env.settings
  let memory :=
    if s.prompts.include_memory ∧ s.prompts.memory_turns > 0 then
      format_memory env.dumpEntry state_view s.prompts.memory_turns.toNat
    else ""
  if memory = "" then "(empty)" else memory

/-- The snippets block substituted into the resolve prompt
(controller.py lines 436-438). -/
def snippetsText (knowledge_hits : List KnowledgeHit) : String :=
  let snippets := format_snippets knowledge_hits 3
  if snippets = "" then "(none)" else snippets

/-- The primary narration-draft request built by `_resolve`
(controller.py lines 440-494): its system prompt (base system prompt plus
language policy plus optional knowledge policy) and its user prompt. -/
def resolveDraft (env : Env) (ctx : TurnContext) (state_view : StateView)
    (knowledge_hits : List KnowledgeHit) : LLMCall :=
  let s := env.settings
  let memory := memoryText env state_view
  let snippets := snippetsText knowledge_hits
  let state_json := state_view.json
  let user0 := render s.prompts.resolve_user_template
    [("transcript", ctx.transcript_text), ("state_json", state_json),
     ("snippets", strTake snippets 4000), ("memory", strTake memory 4000)]
  let detected_lang := pyStrip ctx.locale
  let language_policy := (languagePolicy s ctx.locale).1
  let kb_policy := if snippets ≠ "(none)" then kbPolicyText else ""
  let user := "Detected player language tag: " ++
    (if detected_lang = "" then "unknown" else detected_lang) ++ "\n\n" ++ user0
  let system_prompt := s.prompts.resolve_system ++ "\n\nLanguage policy: " ++
    language_policy ++
    (if kb_policy ≠ "" then "\n\nKnowledge policy: " ++ kb_policy else "")
  {phase := "resolve", system := system_prompt, user := user}

/-- The translation post-pass system prompt (controller.py lines 508-512). -/
def transSystemText : String :=
  "You are a translation post-processor for a tabletop RPG GM. " ++
  "Translate the GM response into the target language only. " ++
  "Keep it concise and preserve game meaning."

/-- The fixed fallback narration returned when the LLM budget is exhausted
(controller.py line 529); note the apostrophe is U+2019 in the source. -/
def fallbackText : String :=
  "Understood. Describe exactly what you do, and I" ++ rsq ++
  "ll resolve the consequences."

/-- The `_Resolution` value returned by `_resolve` (controller.py
lines 531-539): followups/writes/delayed events are empty and
`needs_followup` is `False` unconditionally. -/
def mkResolution (immediate : String) (used : Nat) : Resolution :=
  {immediate_text := immediate, followups := [], writes := [],
   delayed_events := [], needs_followup := false, recurse_reason := none,
   llm_calls_used := used}

/-- `RLMController._resolve` (controller.py lines 424-539), instrumented to
also return the LLM requests it issued in order. The branches compute the
final narration text, the updated call counter and the requests issued; the
single `_Resolution` constructor call of the source (lines 531-539) is the
shared `mkResolution` at the end. -/
def resolve_impl (env : Env) (b : Budget) (ctx : TurnContext)
    (state_view : StateView) (knowledge_hits : List KnowledgeHit)
    (llm_calls : Nat) : Resolution × List LLMCall :=
  let r : String × Nat × List LLMCall :=
    if llm_calls < b.max_llm_calls_per_turn then
      let draft := resolveDraft env ctx state_view knowledge_hits
      let out := env.llm draft.system draft.user
      let llm1 := llm_calls + 1
      let immediate := pyStrip out
      let target_lang := (languagePolicy env.settings ctx.locale).2
      let target_base := lang_base target_lang
      if target_base ≠ "" ∧ target_base ≠ "en" ∧ looks_englishish immediate then
        if llm1 < b.max_llm_calls_per_turn then
          let trans_user := "Target language tag: " ++ target_lang ++
            "\n\nPlayer original utterance:\n" ++ ctx.transcript_text ++
            "\n\nGM draft response:\n" ++ immediate ++
            "\n\nReturn only the translated GM response."
          let translated := env.llm transSystemText trans_user
          let tr := pyStrip translated
          (if tr ≠ "" then tr else immediate, llm1 + 1,
           [draft, {phase := "resolve_translate", system := transSystemText,
                    user := trans_user}])
        else
          (immediate, llm1, [draft])
      else
        (immediate, llm1, [draft])
    else
      (fallbackText, llm_calls, [])
  (mkResolution r.1 r.2.1, r.2.2)

-- ------------------------------------------------------------------
-- Recursive step and entry point (controller.py lines 179-324)
-- ------------------------------------------------------------------

/-- The type of the resolver collaborator as `_rlm_step` consumes it
(inputs of `_resolve` after the intent stage, output `_Resolution` plus the
LLM requests issued). `_rlm_step` is parameterised over it so that claims
about forced resolver behaviour (spec §8 Scenario A, §9 open question) can
be stated; `resolve_impl` is the faithful instantiation. -/
abbrev ResolveFun :=
  TurnContext → StateView → List KnowledgeHit → Nat → Resolution × List LLMCall

/-- Instrumentation record for one (recursive) step: the LLM requests
issued, the retrieval specs actually executed against the knowledge store,
and the number of `_rlm_step` invocations entered. -/
structure StepTrace where
  llmCalls : List LLMCall
  searches : List RetrievalSpec
  steps : Nat
deriving Repr

/-- The fixed degraded narration of the depth-exceeded branch
(controller.py line 261); the apostrophe is U+2019 in the source. -/
def degradedText : String :=
  "I pause—something about this situation is unclear. Let" ++ rsq ++
  "s simplify and continue."

/-- The plan returned by the depth-exceeded branch
(controller.py lines 260-266). -/
def degradedPlan (depth : Nat) : NarrationPlan :=
  {immediate_text := degradedText, followups := [], writes := [],
   delayed_events := [],
   debug := some [("depth", DebugVal.n depth),
                  ("reason", DebugVal.s "max_depth_exceeded")]}

/-- The retrieval specs executed at one depth
(controller.py lines 278-281): gated on a non-empty proposal list and a
positive retrieval budget, and sliced to the first
`max_qdrant_queries_per_turn` specs. -/
def executedRetrievals (b : Budget) (retrievals : List RetrievalSpec) :
    List RetrievalSpec :=
  if retrievals ≠ [] ∧ b.max_qdrant_queries_per_turn > 0 then
    retrievals.take b.max_qdrant_queries_per_turn
  else []

/-- The common part of the `debug` diagnostics dict built by `_rlm_step`
(controller.py lines 297-306 and 315-323). -/
def stepDebug (s : AppSettings) (ctx : TurnContext) (depth : Nat)
    (retrievals : List RetrievalSpec) (knowledge_hits : List KnowledgeHit) : Debug :=
  [("depth", DebugVal.n depth),
   ("knowledge_enabled", DebugVal.b s.knowledge.enabled),
   ("retrieval_queries", DebugVal.n retrievals.length),
   ("knowledge_hits", DebugVal.n knowledge_hits.length),
   ("knowledge_sources", DebugVal.sl (knowledge_sources knowledge_hits 5)),
   ("response_language_mode", DebugVal.s
     (if s.prompts.response_language_mode = "" then "player"
      else s.prompts.response_language_mode)),
   ("response_language_tag", DebugVal.s ctx.locale)]

/-- The `_Intent` computed at one step of `_rlm_step`
(controller.py line 269; independent of the depth). -/
def stepIntent (env : Env) (b : Budget) (ctx : TurnContext) (llm_calls : Nat) :
    Intent :=
  (interpret_intent env b ctx llm_calls).1

/-- The state view read at one step of `_rlm_step` (controller.py line 276). -/
def stepView (env : Env) (b : Budget) (ctx : TurnContext) (llm_calls : Nat) :
    StateView :=
  env.readState (stepIntent env b ctx llm_calls).state_reads

/-- The knowledge hits gathered at one step of `_rlm_step`
(controller.py lines 278-281): the executed retrievals, searched in order,
results concatenated. -/
def stepHits (env : Env) (b : Budget) (ctx : TurnContext) (llm_calls : Nat) :
    List KnowledgeHit :=
  ((executedRetrievals b (stepIntent env b ctx llm_calls).retrievals).map
    env.search).flatten

/-- The `_Resolution` produced at one step of `_rlm_step`
(controller.py lines 284-285), for a given resolver collaborator. -/
def stepResolution (env : Env) (b : Budget) (resolve : ResolveFun)
    (ctx : TurnContext) (llm_calls : Nat) : Resolution :=
  (resolve ctx (stepView env b ctx llm_calls) (stepHits env b ctx llm_calls)
    (stepIntent env b ctx llm_calls).llm_calls_used).1

/-- The LLM requests the resolver issued at one step. -/
def stepRCalls (env : Env) (b : Budget) (resolve : ResolveFun)
    (ctx : TurnContext) (llm_calls : Nat) : List LLMCall :=
  (resolve ctx (stepView env b ctx llm_calls) (stepHits env b ctx llm_calls)
    (stepIntent env b ctx llm_calls).llm_calls_used).2

/-- One level of `RLMController._rlm_step` (controller.py lines 256-324),
with the recursive call abstracted as `recur` (invoked, as in the source,
exactly when `resolution.needs_followup and depth < budget.max_depth`, at
`depth + 1` with the updated LLM-call counter). -/
def rlm_step_body (env : Env) (b : Budget) (resolve : ResolveFun)
    (ctx : TurnContext) (recur : Nat → Nat → NarrationPlan × StepTrace)
    (depth llm_calls : Nat) : NarrationPlan × StepTrace :=
  if depth > b.max_depth then
    (degradedPlan depth, {llmCalls := [], searches := [], steps := 1})
  else
    let resolution := stepResolution env b resolve ctx llm_calls
    if resolution.needs_followup ∧ depth < b.max_depth then
      let followOut := recur (depth + 1) resolution.llm_calls_used
      ({immediate_text := resolution.immediate_text,
        followups := resolution.followups ++
          followOut.1.immediate_text :: followOut.1.followups,
        writes := resolution.writes ++ followOut.1.writes,
        delayed_events := resolution.delayed_events ++ followOut.1.delayed_events,
        debug := some (stepDebug env.settings ctx depth
          (stepIntent env b ctx llm_calls).retrievals (stepHits env b ctx llm_calls) ++
          [("followup", DebugVal.d (followOut.1.debug.getD []))])},
       {llmCalls := (interpret_intent env b ctx llm_calls).2 ++
          stepRCalls env b resolve ctx llm_calls ++ followOut.2.llmCalls,
        searches := executedRetrievals b (stepIntent env b ctx llm_calls).retrievals ++
          followOut.2.searches,
        steps := 1 + followOut.2.steps})
    else
      ({immediate_text := resolution.immediate_text,
        followups := resolution.followups,
        writes := resolution.writes,
        delayed_events := resolution.delayed_events,
        debug := some (stepDebug env.settings ctx depth
          (stepIntent env b ctx llm_calls).retrievals (stepHits env b ctx llm_calls))},
       {llmCalls := (interpret_intent env b ctx llm_calls).2 ++
          stepRCalls env b resolve ctx llm_calls,
        searches := executedRetrievals b (stepIntent env b ctx llm_calls).retrievals,
        steps := 1})

/-- `RLMController._rlm_step`, by structural recursion on the auxiliary
counter `gas` (so that the definition evaluates by kernel reduction).
`rlm_step` below instantiates `gas := b.max_depth - depth`, and the source
recursion guard `depth < b.max_depth` keeps that quantity positive at
every recursive call, so the `gas = 0` continuation (which conservatively
behaves like a call entering the depth-exceeded branch) is unreachable
from `rlm_step`. -/
def rlm_step_gas (env : Env) (b : Budget) (resolve : ResolveFun)
    (ctx : TurnContext) : Nat → Nat → Nat → NarrationPlan × StepTrace
  | 0 => rlm_step_body env b resolve ctx
      (fun d _ => (degradedPlan d, {llmCalls := [], searches := [], steps := 1}))
  | gas + 1 => rlm_step_body env b resolve ctx (rlm_step_gas env b resolve ctx gas)

/-- `RLMController._rlm_step`: the recursion depth left before the budget
ceiling, `b.max_depth - depth`, bounds the number of recursive calls, so it
serves as the structural counter. -/
def rlm_step (env : Env) (b : Budget) (resolve : ResolveFun) (ctx : TurnContext)
    (depth llm_calls : Nat) : NarrationPlan × StepTrace :=
  rlm_step_gas env b resolve ctx (b.max_depth - depth) depth llm_calls

/-- The interaction-log entry dict appended by `handle_turn`
(controller.py lines 218-233). -/
def turnLogEntry (ctx : TurnContext) (plan : NarrationPlan) : LogEntry :=
  {kind := "turn", campaign_id := ctx.campaign_id, session_id := ctx.session_id,
   turn_id := ctx.turn_id, player_id := ctx.player_id, locale := ctx.locale,
   player_text := ctx.transcript_text, gm_text := plan.immediate_text,
   followups := plan.followups}

/-- `RLMController.handle_turn` (controller.py lines 179-246), the part
that determines the returned `NarrationPlan`: run the depth-0 step, then
unconditionally append the interaction-log write. (Campaign/player-row
maintenance, the transactional `apply_writes` commit of `plan.writes`, the
logger calls and the detached background task are state-store/logger side
effects; the store side is modelled separately below.) -/
def handle_turn (env : Env) (b : Budget) (resolve : ResolveFun)
    (ctx : TurnContext) : NarrationPlan × StepTrace :=
  let out := rlm_step env b resolve ctx 0 0
  let plan := out.1
  ({plan with writes := plan.writes ++
      [{kind := "append_log", params := WriteParams.appendLog (turnLogEntry ctx plan)}]},
   out.2)

/-- `handle_turn` with the controller's own resolver `_resolve`, i.e. the
faithful composition the Python entry point executes. -/
def handle_turn_impl (env : Env) (b : Budget) (ctx : TurnContext) :
    NarrationPlan × StepTrace :=
  handle_turn env b (fun c v h n => resolve_impl env b c v h n) ctx

-- ------------------------------------------------------------------
-- World-state store, interaction-log table (gm_engine/state/store.py)
-- ------------------------------------------------------------------

namespace Store

/-- One row of the `interaction_log` SQL table (`models.InteractionLog`):
autoincrement primary key `id`, `campaign_id`, JSON `entry`. -/
structure LogRow where
  id : Nat
  campaign_id : String
  entry : LogEntry
deriving Repr, DecidableEq

/-- The store state relevant to the interaction log: the table rows plus
the next autoincrement id. The other tables (campaigns, players,
characters, delayed events, …) are untouched by `append_log` writes and by
`interaction_log` reads, so they are outside this model. -/
structure WorldDB where
  interaction_log : List LogRow := []
  next_id : Nat := 1
deriving Repr

/-- Effect of one `StateWriteSpec` on the interaction-log table
(`WorldStateStore.apply_writes` loop body, store.py lines 255-301):
`append_log` inserts a fresh row; `schedule_delayed_event` and the generic
CRUD branch write to other tables only (`interaction_log` is not among the
`_model_for_name` targets), leaving this table unchanged. -/
def applyWrite (ctx : TurnContext) (db : WorldDB) (spec : StateWriteSpec) : WorldDB :=
  if spec.kind = "append_log" then
    match spec.params with
    | WriteParams.appendLog e =>
      {db with
        interaction_log := db.interaction_log ++
          [{id := db.next_id, campaign_id := ctx.campaign_id, entry := e}],
        next_id := db.next_id + 1}
    | WriteParams.generic _ => db
  else db

/-- `WorldStateStore.apply_writes` (store.py lines 251-301): apply the
writes in order in one transaction. -/
def apply_writes (ctx : TurnContext) (db : WorldDB)
    (writes : List StateWriteSpec) : WorldDB :=
  writes.foldl (applyWrite ctx) db

/-- Insert a row into a list sorted by descending `id`. -/
def insertDesc (a : LogRow) : List LogRow → List LogRow
  | [] => [a]
  | x :: xs => if x.id ≤ a.id then a :: x :: xs else x :: insertDesc a xs

/-- `ORDER BY id DESC` of the interaction-log query (store.py line 206),
as an insertion sort (row ids are unique under the store invariant, so any
descending sort agrees with the SQL ordering). -/
def sortByIdDesc : List LogRow → List LogRow
  | [] => []
  | x :: xs => insertDesc x (sortByIdDesc xs)

/-- The `interaction_log` branch of `WorldStateStore.read`
(store.py lines 200-225): fetch the newest `max(limit*5, 200)` rows of the
campaign in descending id order, restore chronological order, apply the
optional `session_id`/`player_id` entry filters, and keep the last
`max(1, limit)` entries. -/
def read_interaction_log (ctx : TurnContext) (db : WorldDB)
    (params : ReadParams) : List LogEntry :=
  let limit : Int := params.limit.getD 100
  let fetch_limit : Int := max (limit * 5) 200
  let rows := (sortByIdDesc (db.interaction_log.filter
    (fun r => r.campaign_id == ctx.campaign_id))).take fetch_limit.toNat
  let entries := rows.reverse.map (fun r => r.entry)
  let session_id := pyStrip params.session_id
  let entries :=
    if session_id ≠ "" then
      entries.filter (fun e => pyStrip e.session_id == session_id)
    else entries
  let player_id := pyStrip params.player_id
  let entries :=
    if player_id ≠ "" then
      entries.filter (fun e => pyStrip e.player_id == player_id)
    else entries
  takeLast (max 1 limit).toNat entries

/-- The state view assembled by `WorldStateStore.read` (store.py
lines 175-249), restricted to the interaction-log key this model tracks:
the other read kinds (`campaign_snapshot`, `characters`, `delayed_events`,
unknown kinds) populate other keys of the output dict from other tables
and leave `interaction_log` untouched. -/
structure StoreView where
  campaign_id : String
  interaction_log : Option (List LogEntry) := none
deriving Repr

/-- `WorldStateStore.read` on a list of read specs (store.py
lines 175-249), tracking the `interaction_log` key. -/
def read (ctx : TurnContext) (db : WorldDB) (reads : List StateReadSpec) :
    StoreView :=
  reads.foldl
    (fun out spec =>
      if spec.kind == "interaction_log" then
        {out with interaction_log := some (read_interaction_log ctx db spec.params)}
      else out)
    {campaign_id := ctx.campaign_id}

/-- Store invariant: every stored row id is below the autoincrement
counter (true of SQL autoincrement primary keys). -/
def IdsBelowNext (db : WorldDB) : Prop :=
  ∀ r ∈ db.interaction_log, r.id < db.next_id

end Store

-- ------------------------------------------------------------------
-- Concrete instances used by witnesses and counterexamples
-- ------------------------------------------------------------------

/-- A concrete environment: default settings, an LLM stub that always
answers `"Sure."`, an empty knowledge store, an empty state view. -/
def envA : Env :=
  {settings := {},
   llm := fun _ _ => "Sure.",
   search := fun _ => [],
   readState := fun _ => {},
   dumpEntry := fun _ => ""}

/-- A concrete turn context (spec §8 Scenario E transcript). -/
def ctxA : TurnContext :=
  {campaign_id := "camp", session_id := "sess", turn_id := "t1",
   player_id := "p1", transcript_text := "I attack the goblin with my sword",
   locale := "en-US"}

/-- A resolver collaborator forced to report `needs_followup = True`
(spec §8 Scenario A forces exactly this behaviour), making no LLM calls. -/
def forcedResolve : ResolveFun := fun _ _ _ n =>
  ({immediate_text := "All goes well.", followups := [], writes := [],
    delayed_events := [], needs_followup := true,
    recurse_reason := some "forced", llm_calls_used := n}, [])

/-- `Budget(max_depth=0)` with the other source defaults
(spec §8 Scenario A). -/
def budget0 : Budget := {max_depth := 0}

/-- `Budget(max_depth=1)` with the other source defaults. -/
def budget1 : Budget := {max_depth := 1}

/-- The fallback string exactly as the claim quotes it, with an ASCII
apostrophe (the source's string `fallbackText` uses U+2019 instead). -/
def asciiFallbackClaim : String :=
  "Understood. Describe exactly what you do, and I" ++ sq ++
  "ll resolve the consequences."

/-- The budget contract of a resolver collaborator: it reports one LLM call
used per request it issued, and it never exceeds the LLM budget when
entered within it (the contract `_resolve` implements by gating each call
on `llm_calls < budget.max_llm_calls_per_turn`). -/
def ResolverBudgetOK (b : Budget) (resolve : ResolveFun) : Prop :=
  ∀ ctx v hits n,
    (resolve ctx v hits n).1.llm_calls_used = n + ((resolve ctx v hits n).2).length ∧
    (n ≤ b.max_llm_calls_per_turn →
      (resolve ctx v hits n).1.llm_calls_used ≤ b.max_llm_calls_per_turn)

/-- A resolver that never requests a followup (true of `_resolve`, whose
`needs_followup` is unconditionally `False`). -/
def NoFollowup (resolve : ResolveFun) : Prop :=
  ∀ ctx v hits n, (resolve ctx v hits n).1.needs_followup = false

/-- A resolver that proposes no state writes (true of `_resolve`). -/
def NoResolverWrites (resolve : ResolveFun) : Prop :=
  ∀ ctx v hits n, (resolve ctx v hits n).1.writes = []

/-- A concrete environment in locale mode with voice locale `fr-FR`. -/
def envFr : Env :=
  {settings := {voice := {locale := "fr-FR"},
                prompts := {response_language_mode := "locale"}},
   llm := fun _ _ => "Sure.",
   search := fun _ => [],
   readState := fun _ => {},
   dumpEntry := fun _ => ""}

/-- A turn context whose own locale is German, to exercise "regardless of
ctx.locale" in the C7 witness. -/
def ctxDe : TurnContext :=
  {campaign_id := "camp", session_id := "sess", turn_id := "t2",
   player_id := "p1", transcript_text := "I attack the goblin with my sword",
   locale := "de-DE"}

/-- A concrete environment with memory disabled (knowledge is disabled in
the default settings already). -/
def envQuiet : Env :=
  {settings := {prompts := {include_memory := false}},
   llm := fun _ _ => "Sure.",
   search := fun _ => [],
   readState := fun _ => {},
   dumpEntry := fun _ => ""}

/-- A one-row store and a sample entry for the C8 witness. -/
def dbA : Store.WorldDB :=
  {interaction_log := [⟨1, "camp", {kind := "turn", turn_id := "t0"}⟩],
   next_id := 2}

/-- A sample entry appended in the C8 witness. -/
def entryA : LogEntry :=
  {kind := "turn", campaign_id := "camp", session_id := "sess",
   turn_id := "t1", player_id := "p1", locale := "en-US",
   player_text := "hello", gm_text := "hi", followups := []}


-- ------------------------------------------------------------------
-- Call accounting of the intent stage and the resolver
-- ------------------------------------------------------------------

theorem ite_intent_used_eq (p : Prop) [Decidable p] (k1 k2 : String)
    (rd : List StateReadSpec) (rt : List RetrievalSpec) (c : LLMCall) (n : Nat) :
    (if p then
      (({kind := k1, state_reads := rd, retrievals := rt,
         llm_calls_used := n + 1} : Intent), [c])
     else
      (({kind := k2, state_reads := rd, retrievals := rt,
         llm_calls_used := n} : Intent), ([] : List LLMCall))).1.llm_calls_used =
    n + ((if p then
      (({kind := k1, state_reads := rd, retrievals := rt,
         llm_calls_used := n + 1} : Intent), [c])
     else
      (({kind := k2, state_reads := rd, retrievals := rt,
         llm_calls_used := n} : Intent), ([] : List LLMCall))).2).length := by
  split <;> simp

theorem ite_intent_used_le (q : Prop) [Decidable q] (B : Nat) (k1 k2 : String)
    (rd : List StateReadSpec) (rt : List RetrievalSpec) (c : LLMCall) (n : Nat)
    (hn : n ≤ B) :
    (if q ∧ n < B then
      (({kind := k1, state_reads := rd, retrievals := rt,
         llm_calls_used := n + 1} : Intent), [c])
     else
      (({kind := k2, state_reads := rd, retrievals := rt,
         llm_calls_used := n} : Intent), ([] : List LLMCall))).1.llm_calls_used ≤ B := by
  split
  next h => simp; omega
  next h => simpa using hn

theorem interpret_intent_used_eq (env : Env) (b : Budget) (ctx : TurnContext)
    (n : Nat) :
    (interpret_intent env b ctx n).1.llm_calls_used =
      n + ((interpret_intent env b ctx n).2).length := by
  simp only [interpret_intent]
  exact ite_intent_used_eq _ _ _ _ _ _ n

theorem interpret_intent_used_le (env : Env) (b : Budget) (ctx : TurnContext)
    (n : Nat) (hn : n ≤ b.max_llm_calls_per_turn) :
    (interpret_intent env b ctx n).1.llm_calls_used ≤ b.max_llm_calls_per_turn := by
  simp only [interpret_intent]
  exact ite_intent_used_le _ _ _ _ _ _ _ n hn

theorem stepIntent_used_eq (env : Env) (b : Budget) (ctx : TurnContext) (n : Nat) :
    (stepIntent env b ctx n).llm_calls_used =
      n + ((interpret_intent env b ctx n).2).length :=
  interpret_intent_used_eq env b ctx n

theorem stepIntent_used_le (env : Env) (b : Budget) (ctx : TurnContext) (n : Nat)
    (hn : n ≤ b.max_llm_calls_per_turn) :
    (stepIntent env b ctx n).llm_calls_used ≤ b.max_llm_calls_per_turn :=
  interpret_intent_used_le env b ctx n hn

theorem resolve_impl_needs_followup (env : Env) (b : Budget) (ctx : TurnContext)
    (v : StateView) (hits : List KnowledgeHit) (n : Nat) :
    (resolve_impl env b ctx v hits n).1.needs_followup = false := rfl

theorem resolve_impl_writes_nil (env : Env) (b : Budget) (ctx : TurnContext)
    (v : StateView) (hits : List KnowledgeHit) (n : Nat) :
    (resolve_impl env b ctx v hits n).1.writes = [] := rfl

theorem ite_resolve_tuple_used_eq (p q : Prop) [Decidable p] [Decidable q]
    (s1 s2 s3 : String) (d t : LLMCall) (n : Nat) :
    ((if p then (if q then (s1, n + 1 + 1, [d, t]) else (s2, n + 1, [d]))
      else (s3, n + 1, [d])) : String × Nat × List LLMCall).2.1 =
    n + ((if p then (if q then (s1, n + 1 + 1, [d, t]) else (s2, n + 1, [d]))
      else (s3, n + 1, [d])) : String × Nat × List LLMCall).2.2.length := by
  split
  · split <;> simp
  · simp

theorem ite_resolve_tuple_used_le (p : Prop) [Decidable p] (B : Nat)
    (s1 s2 s3 : String) (d t : LLMCall) (n : Nat) (h1 : n < B) :
    ((if p then (if n + 1 < B then (s1, n + 1 + 1, [d, t]) else (s2, n + 1, [d]))
      else (s3, n + 1, [d])) : String × Nat × List LLMCall).2.1 ≤ B := by
  split
  · split
    next h => simp; omega
    next h => simp; omega
  · simp; omega

theorem ite_resolve_tuple_head (p q : Prop) [Decidable p] [Decidable q]
    (s1 s2 s3 : String) (d t : LLMCall) (m1 m2 m3 : Nat) :
    ∃ rest, ((if p then (if q then (s1, m1, [d, t]) else (s2, m2, [d]))
      else (s3, m3, [d])) : String × Nat × List LLMCall).2.2 = d :: rest := by
  split
  · split
    · exact ⟨[t], rfl⟩
    · exact ⟨[], rfl⟩
  · exact ⟨[], rfl⟩

theorem resolve_impl_used_eq (env : Env) (b : Budget) (ctx : TurnContext)
    (v : StateView) (hits : List KnowledgeHit) (n : Nat) :
    (resolve_impl env b ctx v hits n).1.llm_calls_used =
      n + ((resolve_impl env b ctx v hits n).2).length := by
  simp only [resolve_impl, mkResolution]
  by_cases h1 : n < b.max_llm_calls_per_turn
  · rw [if_pos h1]
    exact ite_resolve_tuple_used_eq _ _ _ _ _ _ _ n
  · rw [if_neg h1]
    simp

theorem resolve_impl_used_le (env : Env) (b : Budget) (ctx : TurnContext)
    (v : StateView) (hits : List KnowledgeHit) (n : Nat)
    (hn : n ≤ b.max_llm_calls_per_turn) :
    (resolve_impl env b ctx v hits n).1.llm_calls_used ≤
      b.max_llm_calls_per_turn := by
  simp only [resolve_impl, mkResolution]
  by_cases h1 : n < b.max_llm_calls_per_turn
  · rw [if_pos h1]
    exact ite_resolve_tuple_used_le _ _ _ _ _ _ _ n h1
  · rw [if_neg h1]
    simpa using hn

theorem resolve_impl_budget_ok (env : Env) (b : Budget) :
    ResolverBudgetOK b (fun c v h n => resolve_impl env b c v h n) :=
  fun ctx v hits n =>
    ⟨resolve_impl_used_eq env b ctx v hits n,
     fun hn => resolve_impl_used_le env b ctx v hits n hn⟩

theorem resolve_impl_no_followup (env : Env) (b : Budget) :
    NoFollowup (fun c v h n => resolve_impl env b c v h n) :=
  fun ctx v hits n => resolve_impl_needs_followup env b ctx v hits n

theorem resolve_impl_no_writes (env : Env) (b : Budget) :
    NoResolverWrites (fun c v h n => resolve_impl env b c v h n) :=
  fun ctx v hits n => resolve_impl_writes_nil env b ctx v hits n

-- ------------------------------------------------------------------
-- Step-level bounds
-- ------------------------------------------------------------------

theorem rlm_step_body_llm_bound (env : Env) (b : Budget) (resolve : ResolveFun)
    (ctx : TurnContext) (recur : Nat → Nat → NarrationPlan × StepTrace)
    (depth n : Nat) (hres : ResolverBudgetOK b resolve)
    (hrec : ∀ d m, m ≤ b.max_llm_calls_per_turn →
      m + ((recur d m).2.llmCalls).length ≤ b.max_llm_calls_per_turn)
    (hn : n ≤ b.max_llm_calls_per_turn) :
    n + ((rlm_step_body env b resolve ctx recur depth n).2.llmCalls).length ≤
      b.max_llm_calls_per_turn := by
  have hre : (stepResolution env b resolve ctx n).llm_calls_used =
      (stepIntent env b ctx n).llm_calls_used +
        (stepRCalls env b resolve ctx n).length :=
    (hres ctx (stepView env b ctx n) (stepHits env b ctx n)
      (stepIntent env b ctx n).llm_calls_used).1
  have hrle : (stepResolution env b resolve ctx n).llm_calls_used ≤
      b.max_llm_calls_per_turn :=
    (hres ctx (stepView env b ctx n) (stepHits env b ctx n)
      (stepIntent env b ctx n).llm_calls_used).2 (stepIntent_used_le env b ctx n hn)
  have hie := stepIntent_used_eq env b ctx n
  simp only [rlm_step_body]
  split
  · simpa using hn
  · split
    · have hf := hrec (depth + 1) (stepResolution env b resolve ctx n).llm_calls_used hrle
      dsimp only
      simp only [List.length_append]
      omega
    · dsimp only
      simp only [List.length_append]
      omega

theorem rlm_step_gas_llm_bound (env : Env) (b : Budget) (resolve : ResolveFun)
    (ctx : TurnContext) (hres : ResolverBudgetOK b resolve) :
    ∀ gas depth n, n ≤ b.max_llm_calls_per_turn →
      n + ((rlm_step_gas env b resolve ctx gas depth n).2.llmCalls).length ≤
        b.max_llm_calls_per_turn := by
  intro gas
  induction gas with
  | zero =>
    intro depth n hn
    exact rlm_step_body_llm_bound env b resolve ctx _ depth n hres
      (fun d m hm => by simpa using hm) hn
  | succ g ih =>
    intro depth n hn
    exact rlm_step_body_llm_bound env b resolve ctx _ depth n hres
      (fun d m hm => ih d m hm) hn

theorem executedRetrievals_length_le (b : Budget) (rs : List RetrievalSpec) :
    (executedRetrievals b rs).length ≤ b.max_qdrant_queries_per_turn := by
  unfold executedRetrievals
  split
  · simpa using Nat.min_le_left _ _
  · simp

theorem rlm_step_body_searches (env : Env) (b : Budget) (resolve : ResolveFun)
    (ctx : TurnContext) (recur : Nat → Nat → NarrationPlan × StepTrace)
    (depth n : Nat) (hnf : NoFollowup resolve) :
    ((rlm_step_body env b resolve ctx recur depth n).2.searches).length ≤
      b.max_qdrant_queries_per_turn := by
  simp only [rlm_step_body]
  split
  · simp
  · split
    next hcond => exact absurd hcond.1 (by
      simp [stepResolution, hnf ctx (stepView env b ctx n) (stepHits env b ctx n)
        (stepIntent env b ctx n).llm_calls_used])
    next =>
      dsimp only
      exact executedRetrievals_length_le b _

theorem rlm_step_body_writes (env : Env) (b : Budget) (resolve : ResolveFun)
    (ctx : TurnContext) (recur : Nat → Nat → NarrationPlan × StepTrace)
    (depth n : Nat) (hnf : NoFollowup resolve) (hw : NoResolverWrites resolve) :
    (rlm_step_body env b resolve ctx recur depth n).1.writes = [] := by
  simp only [rlm_step_body]
  split
  · rfl
  · split
    next hcond => exact absurd hcond.1 (by
      simp [stepResolution, hnf ctx (stepView env b ctx n) (stepHits env b ctx n)
        (stepIntent env b ctx n).llm_calls_used])
    next =>
      dsimp only
      exact hw ctx (stepView env b ctx n) (stepHits env b ctx n)
        ((stepIntent env b ctx n).llm_calls_used)

theorem rlm_step_gas_searches (env : Env) (b : Budget) (resolve : ResolveFun)
    (ctx : TurnContext) (hnf : NoFollowup resolve) (gas depth n : Nat) :
    ((rlm_step_gas env b resolve ctx gas depth n).2.searches).length ≤
      b.max_qdrant_queries_per_turn := by
  cases gas with
  | zero => exact rlm_step_body_searches env b resolve ctx _ depth n hnf
  | succ g => exact rlm_step_body_searches env b resolve ctx _ depth n hnf

theorem rlm_step_gas_writes (env : Env) (b : Budget) (resolve : ResolveFun)
    (ctx : TurnContext) (hnf : NoFollowup resolve) (hw : NoResolverWrites resolve)
    (gas depth n : Nat) :
    (rlm_step_gas env b resolve ctx gas depth n).1.writes = [] := by
  cases gas with
  | zero => exact rlm_step_body_writes env b resolve ctx _ depth n hnf hw
  | succ g => exact rlm_step_body_writes env b resolve ctx _ depth n hnf hw

theorem rlm_step_gas_steps_le (env : Env) (b : Budget) (resolve : ResolveFun)
    (ctx : TurnContext) :
    ∀ gas depth n, b.max_depth - depth ≤ gas →
      (rlm_step_gas env b resolve ctx gas depth n).2.steps ≤
        (b.max_depth - depth) + 1 := by
  intro gas
  induction gas with
  | zero =>
    intro depth n hg
    simp only [rlm_step_gas, rlm_step_body]
    split
    · simp
    · split
      next hcond => exact absurd hcond.2 (by omega)
      next =>
        dsimp only
        omega
  | succ g ih =>
    intro depth n hg
    simp only [rlm_step_gas, rlm_step_body]
    split
    · simp
    · split
      next hcond =>
        dsimp only
        have hfs := ih (depth + 1)
          ((stepResolution env b resolve ctx n).llm_calls_used) (by omega)
        have hd := hcond.2
        omega
      next =>
        dsimp only
        omega

-- ------------------------------------------------------------------
-- Claim theorems: budgets, writes, termination
-- ------------------------------------------------------------------

/-- C2: during one `handle_turn` invocation (with the controller's own
resolver `_resolve`), the total number of `LLMProvider.complete` requests
issued — intent classification, narration draft and translation post-pass,
across all recursion depths — is at most `Budget.max_llm_calls_per_turn`,
because every call site first compares the running counter against the
budget. -/
theorem handle_turn_llm_call_budget (env : Env) (b : Budget) (ctx : TurnContext) :
    ((handle_turn_impl env b ctx).2.llmCalls).length ≤
      b.max_llm_calls_per_turn := by
  have h := rlm_step_gas_llm_bound env b
    (fun c v h n => resolve_impl env b c v h n) ctx
    (resolve_impl_budget_ok env b) (b.max_depth - 0) 0 0 (Nat.zero_le _)
  simpa [handle_turn_impl, handle_turn, rlm_step] using h

/-- C5: during one `handle_turn` invocation the number of knowledge-store
`search` calls executed is at most `Budget.max_qdrant_queries_per_turn`:
retrieval execution is gated on a positive budget, and at each depth only
the first `max_qdrant_queries_per_turn` retrieval specs proposed by the
interpreter are executed (and the controller's resolver never triggers a
second depth). -/
theorem handle_turn_retrieval_budget (env : Env) (b : Budget) (ctx : TurnContext) :
    ((handle_turn_impl env b ctx).2.searches).length ≤
      b.max_qdrant_queries_per_turn := by
  have h := rlm_step_gas_searches env b
    (fun c v h n => resolve_impl env b c v h n) ctx
    (resolve_impl_no_followup env b) (b.max_depth - 0) 0 0
  simpa [handle_turn_impl, handle_turn, rlm_step] using h

/-- C3: the `NarrationPlan` returned by `handle_turn` contains exactly one
write of kind `"append_log"`, and that write's `params.entry.turn_id`
equals `ctx.turn_id`: the log write is appended unconditionally after the
depth-0 step, and the resolver itself proposes no writes. -/
theorem handle_turn_single_append_log (env : Env) (b : Budget) (ctx : TurnContext) :
    ∃ e : LogEntry,
      ((handle_turn_impl env b ctx).1.writes.filter
        (fun w => w.kind == "append_log")) =
        [{kind := "append_log", params := WriteParams.appendLog e}] ∧
      e.turn_id = ctx.turn_id := by
  have hw := rlm_step_gas_writes env b
    (fun c v h n => resolve_impl env b c v h n) ctx
    (resolve_impl_no_followup env b) (resolve_impl_no_writes env b)
    (b.max_depth - 0) 0 0
  simp only [Nat.sub_zero] at hw
  refine ⟨turnLogEntry ctx
    (rlm_step env b (fun c v h n => resolve_impl env b c v h n) ctx 0 0).1, ?_, rfl⟩
  simp [handle_turn_impl, handle_turn, rlm_step, hw, turnLogEntry]

/-- C10: `_rlm_step` terminates for every starting depth, every budget and
every resolver-collaborator behaviour (it is a total function of this
development), and the number of step invocations entered is at most
`max_depth - depth + 1` (truncated subtraction): each recursive call runs
at `depth + 1` under the guard `depth < budget.max_depth`. -/
theorem rlm_step_depth_bounded (env : Env) (b : Budget) (resolve : ResolveFun)
    (ctx : TurnContext) (depth llm_calls : Nat) :
    (rlm_step env b resolve ctx depth llm_calls).2.steps ≤
      (b.max_depth - depth) + 1 :=
  rlm_step_gas_steps_le env b resolve ctx (b.max_depth - depth) depth llm_calls
    (Nat.le_refl _)

-- ------------------------------------------------------------------
-- Claim theorems: budget-exhausted fallback (C4)
-- ------------------------------------------------------------------

/-- C4 counterexample: with `Budget(max_llm_calls_per_turn=0)` the resolver
issues no LLM request, but its fixed fallback narration is not the string
the claim quotes — the source spells the apostrophe in `I’ll` as U+2019,
the claim as ASCII `0x27`. -/
theorem resolve_fallback_counterexample :
    (resolve_impl envA {max_llm_calls_per_turn := 0} ctxA {} [] 0).2 = [] ∧
    (resolve_impl envA {max_llm_calls_per_turn := 0} ctxA {} [] 0).1.immediate_text ≠
      asciiFallbackClaim := by
  refine ⟨by decide, by decide⟩

/-- C4 (amended): whenever the running LLM-call count has reached
`Budget.max_llm_calls_per_turn` before resolution (in particular for
`max_llm_calls_per_turn = 0`), `_resolve` issues no `LLMProvider.complete`
request and returns exactly the fixed fallback string
"Understood. Describe exactly what you do, and I’ll resolve the
consequences." (with its typographic U+2019 apostrophe) as
`immediate_text`. -/
theorem resolve_budget_exhausted_fallback (env : Env) (b : Budget)
    (ctx : TurnContext) (v : StateView) (hits : List KnowledgeHit) (n : Nat)
    (hn : b.max_llm_calls_per_turn ≤ n) :
    (resolve_impl env b ctx v hits n).2 = [] ∧
    (resolve_impl env b ctx v hits n).1.immediate_text = fallbackText := by
  simp only [resolve_impl, mkResolution]
  rw [if_neg (by omega)]
  exact ⟨rfl, rfl⟩

theorem resolve_budget_exhausted_fallback_witness :
    ({max_llm_calls_per_turn := 0} : Budget).max_llm_calls_per_turn ≤ 0 ∧
    ((resolve_impl envA {max_llm_calls_per_turn := 0} ctxA {} [] 0).2 = [] ∧
     (resolve_impl envA {max_llm_calls_per_turn := 0} ctxA {} [] 0).1.immediate_text =
       fallbackText) :=
  ⟨by decide,
   resolve_budget_exhausted_fallback envA {max_llm_calls_per_turn := 0} ctxA {} [] 0
     (by decide)⟩

-- ------------------------------------------------------------------
-- Claim theorems: behaviour at the depth ceiling (C1) and merging (C6)
-- ------------------------------------------------------------------

theorem rlm_step_body_eq_leaf (env : Env) (b : Budget) (resolve : ResolveFun)
    (ctx : TurnContext) (recur : Nat → Nat → NarrationPlan × StepTrace)
    (depth n : Nat) (hd : ¬ depth > b.max_depth)
    (hng : ¬ ((stepResolution env b resolve ctx n).needs_followup ∧
      depth < b.max_depth)) :
    rlm_step_body env b resolve ctx recur depth n =
      ({immediate_text := (stepResolution env b resolve ctx n).immediate_text,
        followups := (stepResolution env b resolve ctx n).followups,
        writes := (stepResolution env b resolve ctx n).writes,
        delayed_events := (stepResolution env b resolve ctx n).delayed_events,
        debug := some (stepDebug env.settings ctx depth
          (stepIntent env b ctx n).retrievals (stepHits env b ctx n))},
       {llmCalls := (interpret_intent env b ctx n).2 ++ stepRCalls env b resolve ctx n,
        searches := executedRetrievals b (stepIntent env b ctx n).retrievals,
        steps := 1}) := by
  simp only [rlm_step_body]
  rw [if_neg hd, if_neg hng]

/-- C1 (amended): when the resolver reports `needs_followup=True` at a
depth equal to `Budget.max_depth` (here `handle_turn` at depth 0 with
`max_depth = 0`), the controller raises no exception and does not recurse
further — exactly one step is entered — but it returns the resolver's own
`immediate_text`, not the fixed degraded "situation is unclear" narration,
and the returned debug map contains no `"reason"` key: the degraded
narration with `reason = "max_depth_exceeded"` is produced only by a step
entered with `depth > max_depth`, which `handle_turn` never does. -/
theorem handle_turn_at_depth_cap (env : Env) (b : Budget) (resolve : ResolveFun)
    (ctx : TurnContext) (hd : b.max_depth = 0)
    (hnf : (stepResolution env b resolve ctx 0).needs_followup = true) :
    (handle_turn env b resolve ctx).2.steps = 1 ∧
    (handle_turn env b resolve ctx).1.immediate_text =
      (stepResolution env b resolve ctx 0).immediate_text ∧
    (((handle_turn env b resolve ctx).1.debug.getD []).lookup "reason") = none := by
  have hleaf := rlm_step_body_eq_leaf env b resolve ctx
    (fun d _ => (degradedPlan d, {llmCalls := [], searches := [], steps := 1}))
    0 0 (by omega) (fun hc => absurd hc.2 (by omega))
  simp only [handle_turn, rlm_step, hd, Nat.sub_self, rlm_step_gas]
  rw [hleaf]
  refine ⟨rfl, rfl, rfl⟩

/-- C1 counterexample: with `Budget(max_depth=0)` and a resolver forced to
report `needs_followup=True` at depth 0, `handle_turn` does not return the
fixed degraded "situation is unclear" narration and its debug map has no
`"reason"` key, contradicting the claimed depth-cap behaviour. -/
theorem handle_turn_depth_cap_counterexample :
    (stepResolution envA budget0 forcedResolve ctxA 0).needs_followup = true ∧
    (handle_turn envA budget0 forcedResolve ctxA).1.immediate_text ≠ degradedText ∧
    (((handle_turn envA budget0 forcedResolve ctxA).1.debug.getD []).lookup
      "reason") = none := by
  refine ⟨by decide, by decide, ?_⟩
  rfl

theorem handle_turn_at_depth_cap_witness :
    (budget0.max_depth = 0 ∧
     (stepResolution envA budget0 forcedResolve ctxA 0).needs_followup = true) ∧
    ((handle_turn envA budget0 forcedResolve ctxA).2.steps = 1 ∧
     (handle_turn envA budget0 forcedResolve ctxA).1.immediate_text =
       (stepResolution envA budget0 forcedResolve ctxA 0).immediate_text ∧
     (((handle_turn envA budget0 forcedResolve ctxA).1.debug.getD []).lookup
       "reason") = none) :=
  ⟨⟨rfl, by decide⟩,
   handle_turn_at_depth_cap envA budget0 forcedResolve ctxA rfl (by decide)⟩

/-- C6: at any depth below `Budget.max_depth` whose resolution reports
`needs_followup=True`, the merged plan keeps the current level's
`immediate_text`; its followups are the current level's followups, then the
recursive call's `immediate_text`, then the recursive call's followups; and
its writes and delayed events are the current level's lists with the
recursive call's lists appended — nothing is dropped on recursion. -/
theorem rlm_step_merge (env : Env) (b : Budget) (resolve : ResolveFun)
    (ctx : TurnContext) (depth n : Nat) (hd : depth < b.max_depth)
    (hnf : (stepResolution env b resolve ctx n).needs_followup = true) :
    (rlm_step env b resolve ctx depth n).1.immediate_text =
      (stepResolution env b resolve ctx n).immediate_text ∧
    (rlm_step env b resolve ctx depth n).1.followups =
      (stepResolution env b resolve ctx n).followups ++
        (rlm_step env b resolve ctx (depth + 1)
          ((stepResolution env b resolve ctx n).llm_calls_used)).1.immediate_text ::
        (rlm_step env b resolve ctx (depth + 1)
          ((stepResolution env b resolve ctx n).llm_calls_used)).1.followups ∧
    (rlm_step env b resolve ctx depth n).1.writes =
      (stepResolution env b resolve ctx n).writes ++
        (rlm_step env b resolve ctx (depth + 1)
          ((stepResolution env b resolve ctx n).llm_calls_used)).1.writes ∧
    (rlm_step env b resolve ctx depth n).1.delayed_events =
      (stepResolution env b resolve ctx n).delayed_events ++
        (rlm_step env b resolve ctx (depth + 1)
          ((stepResolution env b resolve ctx n).llm_calls_used)).1.delayed_events := by
  have hg : b.max_depth - depth = (b.max_depth - (depth + 1)) + 1 := by omega
  simp only [rlm_step, hg, rlm_step_gas, rlm_step_body]
  rw [if_neg (by omega : ¬ depth > b.max_depth), if_pos ⟨hnf, hd⟩]
  exact ⟨rfl, rfl, rfl, rfl⟩

theorem rlm_step_merge_witness :
    (0 < budget1.max_depth ∧
     (stepResolution envA budget1 forcedResolve ctxA 0).needs_followup = true) ∧
    ((rlm_step envA budget1 forcedResolve ctxA 0 0).1.immediate_text =
      (stepResolution envA budget1 forcedResolve ctxA 0).immediate_text ∧
    (rlm_step envA budget1 forcedResolve ctxA 0 0).1.followups =
      (stepResolution envA budget1 forcedResolve ctxA 0).followups ++
        (rlm_step envA budget1 forcedResolve ctxA 1
          ((stepResolution envA budget1 forcedResolve ctxA 0).llm_calls_used)).1.immediate_text ::
        (rlm_step envA budget1 forcedResolve ctxA 1
          ((stepResolution envA budget1 forcedResolve ctxA 0).llm_calls_used)).1.followups ∧
    (rlm_step envA budget1 forcedResolve ctxA 0 0).1.writes =
      (stepResolution envA budget1 forcedResolve ctxA 0).writes ++
        (rlm_step envA budget1 forcedResolve ctxA 1
          ((stepResolution envA budget1 forcedResolve ctxA 0).llm_calls_used)).1.writes ∧
    (rlm_step envA budget1 forcedResolve ctxA 0 0).1.delayed_events =
      (stepResolution envA budget1 forcedResolve ctxA 0).delayed_events ++
        (rlm_step envA budget1 forcedResolve ctxA 1
          ((stepResolution envA budget1 forcedResolve ctxA 0).llm_calls_used)).1.delayed_events) :=
  ⟨⟨by decide, by decide⟩,
   rlm_step_merge envA budget1 forcedResolve ctxA 0 0 (by decide) (by decide)⟩

-- ------------------------------------------------------------------
-- Claim theorem: language policy in locale mode (C7)
-- ------------------------------------------------------------------

theorem isPrefixOf_append_self : ∀ (l t : List Char), l.isPrefixOf (l ++ t) = true := by
  intro l t
  induction l with
  | nil => simp [List.isPrefixOf]
  | cons a l ih => simp [List.isPrefixOf, ih]

theorem containsAux_of_isPrefixOf (nd t : List Char)
    (h : nd.isPrefixOf t = true) : containsAux nd t = true := by
  cases t with
  | nil =>
    cases nd with
    | nil => rfl
    | cons a l => simp [List.isPrefixOf] at h
  | cons c cs => simp [containsAux, h]

theorem containsAux_append_left (p nd t : List Char)
    (h : containsAux nd t = true) : containsAux nd (p ++ t) = true := by
  induction p with
  | nil => simpa using h
  | cons a p ih => simp [containsAux, ih]

/-- A string built with `y` as one of its concatenation parts contains `y`. -/
theorem strContains_mid (x y z w : String) :
    strContains ((x ++ (y ++ z)) ++ w) y = true := by
  unfold strContains
  have hl : ((x ++ (y ++ z)) ++ w).toList =
      x.toList ++ (y.toList ++ (z.toList ++ w.toList)) := by
    simp [String.toList]
  rw [hl]
  exact containsAux_append_left _ _ _
    (containsAux_of_isPrefixOf _ _ (isPrefixOf_append_self _ _))

theorem languagePolicy_locale_fr (s : AppSettings) (loc : String)
    (hmode : s.prompts.response_language_mode = "locale")
    (hlocale : s.voice.locale = "fr-FR") :
    (languagePolicy s loc).1 =
      "Reply ONLY in locale/language fr-FR" ++
      (". " ++ "Do not switch languages even if the player speaks another language.") := by
  simp only [languagePolicy, hmode, hlocale]
  rw [if_pos (show pyLower (pyStrip "locale") = "locale" by decide)]
  rw [if_pos (show ("fr-FR" : String) ≠ "" by decide)]
  rw [if_neg (show ¬ pyStrip "fr-FR" = "" by decide)]
  decide

theorem resolveDraft_system_locale_fr (env : Env) (ctx : TurnContext)
    (v : StateView) (hits : List KnowledgeHit)
    (hmode : env.settings.prompts.response_language_mode = "locale")
    (hlocale : env.settings.voice.locale = "fr-FR") :
    strContains (resolveDraft env ctx v hits).system
      "Reply ONLY in locale/language fr-FR" = true := by
  have hpol := languagePolicy_locale_fr env.settings ctx.locale hmode hlocale
  simp only [resolveDraft]
  rw [hpol]
  exact strContains_mid _ _ _ _

theorem resolve_impl_calls_head (env : Env) (b : Budget) (ctx : TurnContext)
    (v : StateView) (hits : List KnowledgeHit) (n : Nat)
    (hn : n < b.max_llm_calls_per_turn) :
    ∃ rest, (resolve_impl env b ctx v hits n).2 =
      resolveDraft env ctx v hits :: rest := by
  simp only [resolve_impl]
  rw [if_pos hn]
  exact ite_resolve_tuple_head _ _ _ _ _ _ _ _ _ _

/-- C7: with response-language mode `"locale"` and configured voice locale
`"fr-FR"`, whenever the resolver has LLM budget remaining, the first LLM
request it issues is the narration draft and its system prompt contains
the instruction to reply only in locale/language `fr-FR` — whatever
`ctx.locale` is. -/
theorem resolve_locale_mode_system_prompt (env : Env) (b : Budget)
    (ctx : TurnContext) (v : StateView) (hits : List KnowledgeHit) (n : Nat)
    (hmode : env.settings.prompts.response_language_mode = "locale")
    (hlocale : env.settings.voice.locale = "fr-FR")
    (hn : n < b.max_llm_calls_per_turn) :
    ∃ rest, (resolve_impl env b ctx v hits n).2 =
        resolveDraft env ctx v hits :: rest ∧
      strContains (resolveDraft env ctx v hits).system
        "Reply ONLY in locale/language fr-FR" = true := by
  obtain ⟨rest, hrest⟩ := resolve_impl_calls_head env b ctx v hits n hn
  exact ⟨rest, hrest, resolveDraft_system_locale_fr env ctx v hits hmode hlocale⟩

theorem resolve_locale_mode_system_prompt_witness :
    (envFr.settings.prompts.response_language_mode = "locale" ∧
     envFr.settings.voice.locale = "fr-FR" ∧
     0 < ({} : Budget).max_llm_calls_per_turn) ∧
    (∃ rest, (resolve_impl envFr {} ctxDe {} [] 0).2 =
        resolveDraft envFr ctxDe {} [] :: rest ∧
      strContains (resolveDraft envFr ctxDe {} []).system
        "Reply ONLY in locale/language fr-FR" = true) :=
  ⟨⟨rfl, rfl, by decide⟩,
   resolve_locale_mode_system_prompt envFr {} ctxDe {} [] 0 rfl rfl (by decide)⟩

-- ------------------------------------------------------------------
-- Claim theorem: append_log / interaction_log round trip (C8)
-- ------------------------------------------------------------------

theorem sortByIdDesc_append_max (l : List Store.LogRow) (a : Store.LogRow)
    (h : ∀ x ∈ l, x.id < a.id) :
    Store.sortByIdDesc (l ++ [a]) = a :: Store.sortByIdDesc l := by
  induction l with
  | nil => rfl
  | cons x xs ih =>
    have hx : x.id < a.id := h x (by simp)
    have ih' := ih (fun y hy => h y (by simp [hy]))
    simp only [List.cons_append, List.append_eq, Store.sortByIdDesc]
    rw [ih']
    simp only [Store.insertDesc]
    rw [if_neg (by omega)]

theorem mem_drop_append (l : List α) (x : α) :
    ∀ k, k ≤ l.length → x ∈ (l ++ [x]).drop k := by
  induction l with
  | nil =>
    intro k hk
    have hk0 : k = 0 := Nat.le_zero.mp hk
    subst hk0
    simp
  | cons a l ih =>
    intro k hk
    cases k with
    | zero => simp
    | succ k' =>
      simp only [List.cons_append, List.drop_succ_cons]
      exact ih k' (by simpa using hk)

theorem takeLast_mem_last (l : List α) (x : α) (n : Nat) (hn : 1 ≤ n) :
    x ∈ takeLast n (l ++ [x]) := by
  unfold takeLast
  exact mem_drop_append l x _ (by simp; omega)

/-- C8: committing a `StateWriteSpec(kind="append_log", params={entry: e})`
via `apply_writes` and then executing `read` with a `StateReadSpec` of kind
`interaction_log` on the same campaign returns a state view whose
`interaction_log` list contains that exact entry `e` (for every `limit`,
in fact, because the read always keeps the newest entries; the only
assumption is the autoincrement invariant that stored row ids are below
the next id). -/
theorem append_log_read_round_trip (db : Store.WorldDB) (ctx : TurnContext)
    (e : LogEntry) (limit : Int) (hinv : Store.IdsBelowNext db) :
    ∃ es,
      (Store.read ctx
        (Store.apply_writes ctx db
          [{kind := "append_log", params := WriteParams.appendLog e}])
        [{kind := "interaction_log",
          params := {limit := some limit}}]).interaction_log = some es ∧
      e ∈ es := by
  have hdb2 : (Store.apply_writes ctx db
      [{kind := "append_log", params := WriteParams.appendLog e}]).interaction_log =
      db.interaction_log ++ [⟨db.next_id, ctx.campaign_id, e⟩] := rfl
  refine ⟨_, rfl, ?_⟩
  simp only [Store.read_interaction_log, hdb2, Option.getD_some]
  rw [List.filter_append]
  have hrow : List.filter (fun r => r.campaign_id == ctx.campaign_id)
      [(⟨db.next_id, ctx.campaign_id, e⟩ : Store.LogRow)] =
      [⟨db.next_id, ctx.campaign_id, e⟩] := by simp
  rw [hrow]
  rw [sortByIdDesc_append_max _ _ (fun x hx => hinv x (List.mem_filter.mp hx).1)]
  have hpos : 1 ≤ (max (limit * 5) 200 : Int).toNat := by
    have h2 : (200 : Int) ≤ max (limit * 5) 200 := le_max_right _ _
    omega
  obtain ⟨j, hj⟩ : ∃ j, (max (limit * 5) 200 : Int).toNat = j + 1 :=
    ⟨_, (Nat.succ_pred_eq_of_pos hpos).symm⟩
  rw [hj, List.take_succ_cons]
  simp only [List.reverse_cons, List.map_append, List.map_cons, List.map_nil]
  rw [if_neg (show ¬ pyStrip "" ≠ "" by decide),
      if_neg (show ¬ pyStrip "" ≠ "" by decide)]
  exact takeLast_mem_last _ _ _ (by
    have h1 : (1 : Int) ≤ max 1 limit := le_max_left _ _
    omega)

theorem append_log_read_round_trip_witness :
    Store.IdsBelowNext dbA ∧
    (∃ es,
      (Store.read ctxA
        (Store.apply_writes ctxA dbA
          [{kind := "append_log", params := WriteParams.appendLog entryA}])
        [{kind := "interaction_log",
          params := {limit := some 5}}]).interaction_log = some es ∧
      entryA ∈ es) :=
  ⟨by intro r hr; simp [dbA] at hr; subst hr; decide,
   append_log_read_round_trip dbA ctxA entryA 5
     (by intro r hr; simp [dbA] at hr; subst hr; decide)⟩

-- ------------------------------------------------------------------
-- Claim theorem: action heuristic without a classification call (C9)
-- ------------------------------------------------------------------

/-- C9: for the transcript "I attack the goblin with my sword" with memory
disabled and knowledge disabled, intent interpretation classifies the
intent as `"action"` by the heuristic and issues no classification LLM
call (the stripped lowercased transcript is not below the 12-character
short-utterance threshold); it requests only the campaign snapshot and
proposes no retrievals. -/
theorem interpret_action_heuristic (env : Env) (b : Budget) (ctx : TurnContext)
    (n : Nat)
    (hmem : env.settings.prompts.include_memory = false)
    (hknow : env.settings.knowledge.enabled = false)
    (htext : ctx.transcript_text = "I attack the goblin with my sword") :
    (interpret_intent env b ctx n).1.kind = "action" ∧
    (interpret_intent env b ctx n).2 = [] ∧
    (interpret_intent env b ctx n).1.retrievals = [] ∧
    (interpret_intent env b ctx n).1.state_reads =
      [{kind := "campaign_snapshot", params := {}}] ∧
    ¬ (pyLower (pyStrip ctx.transcript_text)).length < 12 := by
  simp only [interpret_intent, hmem, hknow, htext, Bool.false_eq_true, false_and,
    if_false, List.append_nil]
  rw [if_neg (fun hc => absurd hc.1 (by decide))]
  refine ⟨?_, ?_, ?_, ?_, ?_⟩ <;> first | rfl | decide

theorem interpret_action_heuristic_witness :
    (envQuiet.settings.prompts.include_memory = false ∧
     envQuiet.settings.knowledge.enabled = false ∧
     ctxA.transcript_text = "I attack the goblin with my sword") ∧
    ((interpret_intent envQuiet {} ctxA 0).1.kind = "action" ∧
     (interpret_intent envQuiet {} ctxA 0).2 = [] ∧
     (interpret_intent envQuiet {} ctxA 0).1.retrievals = [] ∧
     (interpret_intent envQuiet {} ctxA 0).1.state_reads =
       [{kind := "campaign_snapshot", params := {}}] ∧
     ¬ (pyLower (pyStrip ctxA.transcript_text)).length < 12) :=
  ⟨⟨rfl, rfl, rfl⟩,
   interpret_action_heuristic envQuiet {} ctxA 0 rfl rfl rfl⟩

end GMv3
